import Mathlib

/-!
Shallow embedding of `packages/webamp-modern-2/src/skin/Group.ts`: the
Container (Group) UI object of the declarative skin object runtime, with its
attribute-resolution chain, lifecycle propagation, render pass and scripting
lookup service. Collaborators whose source files are not part of the visible
core (`GuiObj.ts`, `SystemObject.ts`, `utils.ts`, `UIRoot.ts`) are modelled
from the spec and marked as such in their doc comments.
-/

namespace Webamp

/-- Modelled from the spec: Attribute Coercion Utility `Utils.toBool`
(`utils.ts` is not under the visible sources). The spec fixes only the target
type (a pure string-to-boolean conversion); the parsing rule here treats "1"
as true. The theorems below never depend on the parsing rule, only on the fact
that the coerced value is `Utils.toBool value`. -/
def Utils.toBool (s : String) : Bool :=
  s == "1"

/-- Modelled from the spec: Attribute Coercion Utility `Utils.num`
(`utils.ts` is not under the visible sources). A pure string-to-number
conversion; the theorems below never depend on the parsing rule, only on the
fact that the coerced value is `Utils.num value`. -/
def Utils.num (s : String) : Int :=
  (s.toInt?).getD 0

/-- Modelled from the spec: Attribute Coercion Utility `Utils.px`
(`utils.ts` is not under the visible sources). Converts a numeric size into a
render-surface length string; per the spec an unset value must resolve to a
neutral empty length, not a numeric zero. -/
def Utils.px : Option Int → String
  | none => ""
  | some n => toString n ++ "px"

/-- The JavaScript string method `toLowerCase()`, used by `Group.ts` on
attribute keys and lookup queries: lowercases every character. Defined by a
structural map over the character list so that it evaluates by kernel
reduction. -/
def toLowerCase (s : String) : String :=
  ⟨s.data.map Char.toLower⟩

/-- The scalar configuration fields of a Group, mirroring the field
declarations of `Group.ts` lines 9-16. Fields that are `undefined` until an
attribute sets them are modelled as `Option`; `_drawBackground` is read only
through boolean tests, where `undefined` and `false` coincide, so it is a
`Bool` defaulting to `false`. The declared identifier `id` lives on the base
`GuiObj` in the source; it is folded into this record because the base class
file is not under the visible sources. -/
structure GroupAttrs where
  id : String := ""
  instanceId : Option String := none
  background : Option String := none
  drawBackground : Bool := false
  minimumHeight : Option Int := none
  maximumHeight : Option Int := none
  minimumWidth : Option Int := none
  maximumWidth : Option Int := none
  deriving DecidableEq, Repr

mutual
/-- A node of the skin object tree. A `leaf` is modelled from the spec: any
non-container `GuiObj` (the base class file is not under the visible
sources), which owns just its declared identifier, stored lowercased per the
spec's case-insensitivity invariant. A `group` is a Container. -/
inductive GuiObj where
  | leaf (id : String)
  | group (g : Group)

/-- A Container (Group): its scalar configuration, the ordered list of
attached System Objects (identified by name — System Objects carry no
structure any claim depends on), and the ordered list of child UI objects,
mirroring `_systemObjects` and `_children` of `Group.ts` lines 17-18. -/
inductive Group where
  | mk (attrs : GroupAttrs) (systemObjects : List String) (children : List GuiObj)
end

def Group.attrs : Group → GroupAttrs
  | .mk a _ _ => a

def Group.systemObjects : Group → List String
  | .mk _ s _ => s

def Group.children : Group → List GuiObj
  | .mk _ _ c => c

/-- Replace the scalar configuration of a Group, keeping its system objects
and children. -/
def Group.withAttrs : Group → GroupAttrs → Group
  | .mk _ s c, a => .mk a s c

@[simp] theorem Group.attrs_mk (a : GroupAttrs) (s : List String) (c : List GuiObj) :
    (Group.mk a s c).attrs = a := rfl

@[simp] theorem Group.systemObjects_mk (a : GroupAttrs) (s : List String) (c : List GuiObj) :
    (Group.mk a s c).systemObjects = s := rfl

@[simp] theorem Group.children_mk (a : GroupAttrs) (s : List String) (c : List GuiObj) :
    (Group.mk a s c).children = c := rfl

@[simp] theorem Group.withAttrs_mk (a b : GroupAttrs) (s : List String) (c : List GuiObj) :
    (Group.mk a s c).withAttrs b = Group.mk b s c := rfl

@[simp] theorem Group.withAttrs_attrs (g : Group) : g.withAttrs g.attrs = g := by
  cases g; rfl

@[simp] theorem Group.attrs_withAttrs (g : Group) (a : GroupAttrs) :
    (g.withAttrs a).attrs = a := by
  cases g; rfl

@[simp] theorem Group.systemObjects_withAttrs (g : Group) (a : GroupAttrs) :
    (g.withAttrs a).systemObjects = g.systemObjects := by
  cases g; rfl

@[simp] theorem Group.children_withAttrs (g : Group) (a : GroupAttrs) :
    (g.withAttrs a).children = g.children := by
  cases g; rfl

/-- Modelled from the spec: `GuiObj.setXmlAttr`, the base type's attribute
resolver (`GuiObj.ts` is not under the visible sources). The spec says the
Base UI Object owns identity and the attribute-resolution entry point, and
that the stored identifier is kept lowercase for case-insensitive lookup; so
the base resolver recognizes the declared-id key, stores the value lowercased,
and reports every other key as not handled. -/
def GuiObj.setXmlAttrBase (a : GroupAttrs) (key value : String) : GroupAttrs × Bool :=
  if key = "id" then ({ a with id := toLowerCase value }, true) else (a, false)

/-- `Group.setXmlAttr` (`Group.ts` lines 20-51): lowercase the key, delegate
to the base resolver first, and only when the base reports not-handled match
the key against the Group's own recognized set; unrecognized keys fall
through to `false` with no field change. -/
def Group.setXmlAttr (g : Group) (key0 value : String) : Group × Bool :=
  let key := toLowerCase key0
  match GuiObj.setXmlAttrBase g.attrs key value with
  | (a, true) => (g.withAttrs a, true)
  | (a, false) =>
    if key = "instance_id" then (g.withAttrs { a with instanceId := some value }, true)
    else if key = "background" then (g.withAttrs { a with background := some value }, true)
    else if key = "drawbackground" then
      (g.withAttrs { a with drawBackground := Utils.toBool value }, true)
    else if key = "minimum_h" then
      (g.withAttrs { a with minimumHeight := some (Utils.num value) }, true)
    else if key = "minimum_w" then
      (g.withAttrs { a with minimumWidth := some (Utils.num value) }, true)
    else if key = "maximum_h" then
      (g.withAttrs { a with maximumHeight := some (Utils.num value) }, true)
    else if key = "maximum_w" then
      (g.withAttrs { a with maximumWidth := some (Utils.num value) }, true)
    else (g.withAttrs a, false)

/-- The keys the Group's own branch of the resolver recognizes
(`Group.ts` lines 25-46). -/
def Group.ownKeys : List String :=
  ["instance_id", "background", "drawbackground",
   "minimum_h", "minimum_w", "maximum_h", "maximum_w"]

/-- Every key recognized anywhere in the resolution chain: the base type's
declared-id key followed by the Group's own keys. -/
def Group.chainKeys : List String :=
  "id" :: Group.ownKeys

/-- `Group.getId` (`Group.ts` lines 62-64): `this._instanceId || this._id`.
JavaScript `||` falls through on the empty string as well as on `undefined`,
so an empty instance id resolves to the declared id. -/
def Group.getId (g : Group) : String :=
  match g.attrs.instanceId with
  | some s => if s = "" then g.attrs.id else s
  | none => g.attrs.id

/-- Resolved identity of any UI object: a Group resolves via `Group.getId`; a
non-container returns its declared id (modelled from the spec, `GuiObj.ts`
not being under the visible sources). -/
def GuiObj.getId : GuiObj → String
  | .leaf id => id
  | .group g => Group.getId g

/-- `Group.getobject` (`Group.ts` lines 77-88), the scripting lookup service
(`findChild` of the spec): lowercase the query, linearly scan the direct
children for the first one whose resolved identity equals the lowercased
query, and on a miss throw a lookup error whose message carries the requested
id verbatim, the resolved id of this container, and the comma-joined resolved
ids of all direct children. The throw is modelled as `Except.error`. -/
def Group.getobject (g : Group) (objectId : String) : Except String GuiObj :=
  let lower := toLowerCase objectId
  match g.children.find? (fun obj => obj.getId == lower) with
  | some obj => .ok obj
  | none =>
    let foundIds := String.intercalate ", " (g.children.map (fun child => child.getId))
    .error ("Could not find an object with the id: \"" ++ objectId ++
      "\" within object \"" ++ g.getId ++ "\". Only found: " ++ foundIds)

/-- One downstream `init` call issued by `Group.init`, recording the callee
and the context value passed along. `σ` is the caller-supplied opaque context
type (`SkinContext`); the core never inspects it, which the embedding makes
literal by being parametric in `σ`. -/
inductive InitCall (σ : Type) where
  | sysInit (systemObject : String) (context : σ)
  | childInit (child : GuiObj) (context : σ)

/-- The first loop of `Group.init` (`Group.ts` lines 54-56): one `init` call
per attached system object, in attachment order. -/
def Group.initSysLoop {σ : Type} (context : σ) : List String → List (InitCall σ)
  | [] => []
  | so :: rest => InitCall.sysInit so context :: Group.initSysLoop context rest

/-- The second loop of `Group.init` (`Group.ts` lines 57-59): one `init` call
per child, in declaration order. -/
def Group.initChildLoop {σ : Type} (context : σ) : List GuiObj → List (InitCall σ)
  | [] => []
  | child :: rest => InitCall.childInit child context :: Group.initChildLoop context rest

/-- `Group.init` (`Group.ts` lines 53-60), as the trace of the downstream
`init` calls it issues directly: first the system-object loop, then the
child loop. -/
def Group.init {σ : Type} (g : Group) (context : σ) : List (InitCall σ) :=
  Group.initSysLoop context g.systemObjects ++ Group.initChildLoop context g.children

/-- One operation `Group.draw` performs on a render-target (`_div`) handle.
`setDivAttr`, `setHeight`, `setWidth` and `setBackground` act on the div of
the group being drawn; `appendChild child` appends `child`'s div to the div
of the group being drawn; `baseDraw` stands for the base render behavior
`super.draw()` (modelled from the spec: `GuiObj.ts` is not under the visible
sources; the spec says it sets shared presentation attributes on the
render-target). -/
inductive DrawEvent where
  | baseDraw
  | setDivAttr (name value : String)
  | setHeight (value : String)
  | setWidth (value : String)
  | setBackground (css : String)
  | appendChild (child : GuiObj)

/-- The part of `Group.draw` that acts on the group's own div before the
child loop (`Group.ts` lines 91-98): the base draw, the diagnostic tag, the
maximum-height/width lengths, and — only when a background reference is set
and the draw-background flag is true — the background composition value
obtained from the resource provider. `provider` is the injected stand-in for
`UI_ROOT.getBitmap(ref).getBackgrondCSSAttribute()` (modelled from the spec:
`UIRoot.ts` is not under the visible sources). -/
def Group.drawSelf (provider : String → String) (g : Group) : List DrawEvent :=
  [DrawEvent.baseDraw,
   DrawEvent.setDivAttr "data-obj-name" "Group",
   DrawEvent.setHeight (Utils.px g.attrs.maximumHeight),
   DrawEvent.setWidth (Utils.px g.attrs.maximumWidth)] ++
  (match g.attrs.background, g.attrs.drawBackground with
   | some b, true => [DrawEvent.setBackground (provider b)]
   | _, _ => [])

mutual
/-- `draw` of any UI object: a Group draws per `Group.draw`; a non-container
performs its base render behavior (modelled from the spec). -/
def GuiObj.draw (provider : String → String) : GuiObj → List DrawEvent
  | .leaf _ => [DrawEvent.baseDraw]
  | .group g => (Group.draw provider g).2

/-- `Group.draw` (`Group.ts` lines 90-103). Returns the group as left after
the call (no field of the group is assigned by `draw`, so it is returned
as-is) together with the trace of render-target operations: the group's own
div operations, then the child loop. -/
def Group.draw (provider : String → String) : Group → Group × List DrawEvent
  | .mk a s c =>
    (.mk a s c, Group.drawSelf provider (.mk a s c) ++ Group.drawChildren provider c)

/-- The child loop of `Group.draw` (`Group.ts` lines 99-102): for each child
in declaration order, draw the child completely, then append the child's div
to this group's div. -/
def Group.drawChildren (provider : String → String) : List GuiObj → List DrawEvent
  | [] => []
  | child :: rest =>
    GuiObj.draw provider child ++ [DrawEvent.appendChild child] ++
      Group.drawChildren provider rest
end

/-- State for the System Object attachment protocol, across several
containers. `parents` records every `setParentGroup` assignment, most recent
first, so a system object's current parent back-reference is the first entry
for its name; `members` records every `_systemObjects.push`, in order, as
(container, system object) pairs, and is never shrunk. Containers and system
objects are identified by name. -/
structure SysWorld where
  parents : List (String × String) := []
  members : List (String × String) := []
  deriving DecidableEq

/-- Modelled from the spec: `SystemObject.setParentGroup` (`SystemObject.ts`
is not under the visible sources). The spec says a System Object holds a
back-reference to its owning container; assignment overwrites it, which the
record of assignments models by prepending. -/
def SysWorld.setParentGroup (w : SysWorld) (systemObj container : String) : SysWorld :=
  { w with parents := (systemObj, container) :: w.parents }

/-- The current parent back-reference of a system object: the most recent
`setParentGroup` assignment for it, if any. -/
def SysWorld.parentOf (w : SysWorld) (systemObj : String) : Option String :=
  (w.parents.find? (fun p => p.1 == systemObj)).map (fun p => p.2)

/-- `Group.addSystemObject` (`Group.ts` lines 66-69):
`systemObj.setParentGroup(this); this._systemObjects.push(systemObj);` —
set the back-reference, then append to the container's system-object list.
Nothing removes the object from any list it is already on. -/
def SysWorld.addSystemObject (w : SysWorld) (container systemObj : String) : SysWorld :=
  let w1 := w.setParentGroup systemObj container
  { w1 with members := w1.members ++ [(container, systemObj)] }

/-- Membership of a system object in a container's system-object list. -/
def SysWorld.inList (w : SysWorld) (container systemObj : String) : Prop :=
  (container, systemObj) ∈ w.members

/-! Concrete skin trees used to instantiate the theorems below. -/

def playObj : GuiObj := GuiObj.leaf "play"

def stopObj : GuiObj := GuiObj.leaf "stop"

/-- A container with two direct children, ids "play" and "stop". -/
def demoGroup : Group := Group.mk { id := "main" } [] [playObj, stopObj]

/-- An inner container holding the only object named "deep". -/
def innerGroup : Group := Group.mk { id := "inner" } [] [GuiObj.leaf "deep"]

/-- An outer container whose only direct child is `innerGroup`; the object
named "deep" is two levels down from it. -/
def outerGroup : Group := Group.mk { id := "outer" } [] [GuiObj.group innerGroup]

/-- A container in which two distinct children both resolve to id "stop". -/
def dupGroup : Group :=
  Group.mk { id := "dup" } [] [GuiObj.leaf "play", GuiObj.leaf "stop", GuiObj.leaf "stop"]

/-- A bare container with declared id "root" and nothing set. -/
def rootGroup : Group := Group.mk { id := "root" } [] []

/-! Helper lemmas. -/

/-- `find?` returns the element at the first index satisfying the predicate. -/
theorem find_first_of_getElem {α : Type} (p : α → Bool) :
    ∀ (l : List α) (i : Nat) (c : α), l[i]? = some c → p c = true →
      (∀ j, j < i → ∀ d, l[j]? = some d → p d = false) → l.find? p = some c := by
  intro l
  induction l with
  | nil => intro i c hc _ _; simp at hc
  | cons a t ih =>
    intro i c hc hp hfirst
    cases i with
    | zero =>
      simp at hc
      subst hc
      simp [List.find?, hp]
    | succ n =>
      have ha : p a = false := hfirst 0 (Nat.succ_pos n) a (by simp)
      simp at hc
      have := ih n c hc hp (fun j hj d hd => hfirst (j + 1) (by omega) d (by simpa using hd))
      simp [List.find?, ha, this]

theorem initSysLoop_eq_map {σ : Type} (context : σ) (l : List String) :
    Group.initSysLoop context l = l.map (fun so => InitCall.sysInit so context) := by
  induction l with
  | nil => rfl
  | cons a t ih => simp [Group.initSysLoop, ih]

theorem initChildLoop_eq_map {σ : Type} (context : σ) (l : List GuiObj) :
    Group.initChildLoop context l = l.map (fun c => InitCall.childInit c context) := by
  induction l with
  | nil => rfl
  | cons a t ih => simp [Group.initChildLoop, ih]

theorem drawChildren_eq_flatten (provider : String → String) (l : List GuiObj) :
    Group.drawChildren provider l
      = (l.map (fun c => GuiObj.draw provider c ++ [DrawEvent.appendChild c])).flatten := by
  induction l with
  | nil => rfl
  | cons a t ih => simp [Group.drawChildren, ih]

/-! Claims. -/

/-- C1: `findChild(objectId)` performs a case-insensitive linear scan over
the container's direct children only — not system objects, not deeper
descendants — comparing the lowercased query against each child's resolved
identity; on success it returns the matching direct child (so the result
depends only on the lowercase class of the query, and a matching descendant
two levels down is never returned: when no direct child matches, the call
fails even if a descendant matches). -/
theorem getobject_direct_children_case_insensitive (g : Group) (q q' : String) :
    (∀ c, Group.getobject g q = Except.ok c → c ∈ g.children ∧ GuiObj.getId c = toLowerCase q)
    ∧ (toLowerCase q = toLowerCase q' →
        (Group.getobject g q).toOption = (Group.getobject g q').toOption)
    ∧ ((∀ c ∈ g.children, GuiObj.getId c ≠ toLowerCase q) →
        ∃ msg, Group.getobject g q = Except.error msg) := by
  refine ⟨?_, ?_, ?_⟩
  · intro c hc
    simp only [Group.getobject] at hc
    rcases hfind : g.children.find? (fun obj => obj.getId == toLowerCase q) with _ | obj
    · rw [hfind] at hc
      simp at hc
    · rw [hfind] at hc
      simp at hc
      subst hc
      exact ⟨List.mem_of_find?_eq_some hfind, by simpa using List.find?_some hfind⟩
  · intro hq
    simp only [Group.getobject, hq]
    rcases hfind : g.children.find? (fun obj => obj.getId == toLowerCase q') with _ | obj
    · rw [hfind]
      rfl
    · rw [hfind]
  · intro hmiss
    have hfind : g.children.find? (fun obj => obj.getId == toLowerCase q) = none := by
      rw [List.find?_eq_none]
      intro c hc
      simpa using hmiss c hc
    simp only [Group.getobject, hfind]
    exact ⟨_, rfl⟩

/-- C1 witness: the object "deep" two levels below `outerGroup` is not found
by `outerGroup`, and the query is case-insensitive: "STOP" and "stop" resolve
to the same child of `demoGroup`. -/
theorem getobject_direct_children_case_insensitive_witness :
    (∃ msg, Group.getobject outerGroup "deep" = Except.error msg)
    ∧ (Group.getobject demoGroup "STOP").toOption
        = (Group.getobject demoGroup "stop").toOption := by
  constructor
  · exact (getobject_direct_children_case_insensitive outerGroup "deep" "deep").2.2
      (by decide)
  · exact (getobject_direct_children_case_insensitive demoGroup "STOP" "stop").2.1
      (by decide)

/-- C2: when no direct child matches, `findChild` fails with a lookup error
whose message carries the requested id verbatim, the resolved id of the
searching container, and the comma-joined list of exactly the resolved ids of
all direct children in order; the error is returned to the caller, never
swallowed. -/
theorem getobject_miss_error_message (g : Group) (q : String)
    (hmiss : ∀ c ∈ g.children, GuiObj.getId c ≠ toLowerCase q) :
    Group.getobject g q
      = Except.error ("Could not find an object with the id: \"" ++ q ++
          "\" within object \"" ++ Group.getId g ++ "\". Only found: " ++
          String.intercalate ", " (g.children.map GuiObj.getId)) := by
  have hfind : g.children.find? (fun obj => obj.getId == toLowerCase q) = none := by
    rw [List.find?_eq_none]
    intro c hc
    simpa using hmiss c hc
  simp only [Group.getobject, hfind]

/-- C2 witness: the spec's own scenario — querying "pause" on a container
whose children are "play" and "stop" produces the full diagnostic message. -/
theorem getobject_miss_error_message_witness :
    Group.getobject demoGroup "pause"
      = Except.error ("Could not find an object with the id: \"pause\" " ++
          "within object \"main\". Only found: play, stop") := by
  rw [getobject_miss_error_message demoGroup "pause" (by decide)]
  rfl

/-- C10: when several direct children match the lowercased query, `findChild`
returns the earliest matching child in declaration order: if the child at
index `i` matches and no child at an earlier index does, that child is
returned — regardless of any further matches after `i`. -/
theorem getobject_earliest_match (g : Group) (q : String) (i : Nat) (c : GuiObj)
    (hc : g.children[i]? = some c)
    (hm : GuiObj.getId c = toLowerCase q)
    (hfirst : ∀ j, j < i → ∀ d, g.children[j]? = some d → GuiObj.getId d ≠ toLowerCase q) :
    Group.getobject g q = Except.ok c := by
  have hfind : g.children.find? (fun obj => obj.getId == toLowerCase q) = some c := by
    apply find_first_of_getElem _ g.children i c hc (by simpa using hm)
    intro j hj d hd
    simpa using hfirst j hj d hd
  simp only [Group.getobject, hfind]

/-- C10 witness: in `dupGroup` two children both resolve to "stop"; the query
"STOP" returns the one at index 1, the earliest match. -/
theorem getobject_earliest_match_witness :
    Group.getobject dupGroup "STOP" = Except.ok (GuiObj.leaf "stop") := by
  apply getobject_earliest_match dupGroup "STOP" 1 (GuiObj.leaf "stop") (by rfl) (by decide)
  intro j hj d hd
  interval_cases j
  simp [dupGroup] at hd
  subst hd
  decide

/-- C3: every key of the Container table is recognized: `setAttribute`
returns `true` and the corresponding field holds the coerced value (raw
string for instance_id and background, boolean for drawbackground, numeric
for the min/max keys), all other fields untouched; a key recognized nowhere
in the chain returns `false` with the container completely unchanged. -/
theorem setXmlAttr_container_table (g : Group) (v k : String)
    (hk : toLowerCase k ∉ Group.chainKeys) :
    Group.setXmlAttr g "instance_id" v
        = (g.withAttrs { g.attrs with instanceId := some v }, true)
    ∧ Group.setXmlAttr g "background" v
        = (g.withAttrs { g.attrs with background := some v }, true)
    ∧ Group.setXmlAttr g "drawbackground" v
        = (g.withAttrs { g.attrs with drawBackground := Utils.toBool v }, true)
    ∧ Group.setXmlAttr g "minimum_h" v
        = (g.withAttrs { g.attrs with minimumHeight := some (Utils.num v) }, true)
    ∧ Group.setXmlAttr g "minimum_w" v
        = (g.withAttrs { g.attrs with minimumWidth := some (Utils.num v) }, true)
    ∧ Group.setXmlAttr g "maximum_h" v
        = (g.withAttrs { g.attrs with maximumHeight := some (Utils.num v) }, true)
    ∧ Group.setXmlAttr g "maximum_w" v
        = (g.withAttrs { g.attrs with maximumWidth := some (Utils.num v) }, true)
    ∧ Group.setXmlAttr g k v = (g, false) := by
  simp only [Group.chainKeys, Group.ownKeys, List.mem_cons, List.mem_singleton,
    not_or, List.not_mem_nil] at hk
  obtain ⟨h0, h1, h2, h3, h4, h5, h6, h7, -⟩ := hk
  refine ⟨rfl, rfl, rfl, rfl, rfl, rfl, rfl, ?_⟩
  simp [Group.setXmlAttr, GuiObj.setXmlAttrBase, h0, h1, h2, h3, h4, h5, h6, h7]

/-- C3 witness: the unrecognized key "volume" leaves `rootGroup` untouched
and reports `false`, while the recognized key "background" stores the raw
value and reports `true`. -/
theorem setXmlAttr_container_table_witness :
    Group.setXmlAttr rootGroup "volume" "bg.png" = (rootGroup, false)
    ∧ (Group.setXmlAttr rootGroup "background" "bg.png").1.attrs.background
        = some "bg.png" := by
  have h := setXmlAttr_container_table rootGroup "bg.png" "volume" (by decide)
  exact ⟨h.2.2.2.2.2.2.2, by rw [h.2.1]; rfl⟩

/-- C4: `setAttribute` first lowercases the key (so two keys with the same
lowercase form are fully equivalent — in particular "Background" and
"background"), then delegates to the base type's resolver; when the base
handles the key the Container's own branch never runs, and the returned
boolean is the logical OR of base handling and the Container's own key set. -/
theorem setXmlAttr_chain_of_responsibility (g : Group) (k k' v : String) :
    (toLowerCase k = toLowerCase k' →
        Group.setXmlAttr g k v = Group.setXmlAttr g k' v)
    ∧ ((GuiObj.setXmlAttrBase g.attrs (toLowerCase k) v).2 = true →
        Group.setXmlAttr g k v
          = (g.withAttrs (GuiObj.setXmlAttrBase g.attrs (toLowerCase k) v).1, true))
    ∧ (Group.setXmlAttr g k v).2
        = ((GuiObj.setXmlAttrBase g.attrs (toLowerCase k) v).2
            || Group.ownKeys.contains (toLowerCase k)) := by
  refine ⟨?_, ?_, ?_⟩
  · intro hk
    simp only [Group.setXmlAttr, hk]
  · intro hb
    rcases hbase : GuiObj.setXmlAttrBase g.attrs (toLowerCase k) v with ⟨a, b⟩
    rw [hbase] at hb
    subst hb
    simp only [Group.setXmlAttr, hbase]
  · rcases hbase : GuiObj.setXmlAttrBase g.attrs (toLowerCase k) v with ⟨a, b⟩
    cases b
    · simp only [Group.setXmlAttr, hbase, Bool.false_or, Group.ownKeys]
      by_cases h1 : toLowerCase k = "instance_id"
      · simp [h1]
      by_cases h2 : toLowerCase k = "background"
      · simp [h1, h2]
      by_cases h3 : toLowerCase k = "drawbackground"
      · simp [h1, h2, h3]
      by_cases h4 : toLowerCase k = "minimum_h"
      · simp [h1, h2, h3, h4]
      by_cases h5 : toLowerCase k = "minimum_w"
      · simp [h1, h2, h3, h4, h5]
      by_cases h6 : toLowerCase k = "maximum_h"
      · simp [h1, h2, h3, h4, h5, h6]
      by_cases h7 : toLowerCase k = "maximum_w"
      · simp [h1, h2, h3, h4, h5, h6, h7]
      · simp [h1, h2, h3, h4, h5, h6, h7]
    · simp [Group.setXmlAttr, hbase]

/-- C4 witness: "Background" and "background" are interchangeable on
`rootGroup`, and a key the base type handles ("ID") is resolved by the base,
bypassing the Container's own branch. -/
theorem setXmlAttr_chain_of_responsibility_witness :
    Group.setXmlAttr rootGroup "Background" "x" = Group.setXmlAttr rootGroup "background" "x"
    ∧ Group.setXmlAttr rootGroup "ID" "BTN"
        = (rootGroup.withAttrs
            (GuiObj.setXmlAttrBase rootGroup.attrs (toLowerCase "ID") "BTN").1, true) := by
  constructor
  · exact (setXmlAttr_chain_of_responsibility rootGroup "Background" "background" "x").1
      (by decide)
  · exact (setXmlAttr_chain_of_responsibility rootGroup "ID" "ID" "BTN").2.1 (by decide)

/-- C8 counterexample: setting the instance_id attribute of `rootGroup`
(declared id "root") to the empty string does set the instance-id field, yet
`getId` returns the declared id "root", not the instance-id "" — JavaScript
`this._instanceId || this._id` falls through on the empty string. So "getId
returns the instance-id whenever one has been set" fails at this input. -/
theorem getId_empty_instanceId_counterexample :
    (Group.setXmlAttr rootGroup "instance_id" "").1.attrs.instanceId = some ""
    ∧ Group.getId (Group.setXmlAttr rootGroup "instance_id" "").1 = "root"
    ∧ "root" ≠ "" := by
  decide

/-- C8 amended: `getId()` returns the instance-id when one has been set to a
non-empty string; otherwise — no instance-id, or an instance-id set to the
empty string — it returns the declared id. -/
theorem getId_instanceId_amended (g : Group) :
    (∀ s, g.attrs.instanceId = some s → s ≠ "" → Group.getId g = s)
    ∧ (g.attrs.instanceId = none → Group.getId g = g.attrs.id)
    ∧ (g.attrs.instanceId = some "" → Group.getId g = g.attrs.id) := by
  refine ⟨?_, ?_, ?_⟩
  · intro s hs hne
    simp [Group.getId, hs, hne]
  · intro h
    simp [Group.getId, h]
  · intro h
    simp [Group.getId, h]

/-- C8 witness: a container with declared id "root" and instance-id "Main"
resolves to "Main"; one with no instance-id resolves to its declared id. -/
theorem getId_instanceId_amended_witness :
    Group.getId (Group.mk { id := "root", instanceId := some "Main" } [] []) = "Main"
    ∧ Group.getId rootGroup = "root" := by
  constructor
  · exact (getId_instanceId_amended
      (Group.mk { id := "root", instanceId := some "Main" } [] [])).1 "Main" rfl (by decide)
  · exact (getId_instanceId_amended rootGroup).2.1 rfl

/-- C5: `initialize(context)` on a container with N attached system objects
and M declared children issues exactly N + M downstream `init` calls, each
forwarding the opaque context unchanged; the first N go to the system objects
in attachment order, the remaining M to the children in declaration order. -/
theorem init_call_order {σ : Type} (g : Group) (context : σ) :
    Group.init g context
      = g.systemObjects.map (fun so => InitCall.sysInit so context)
        ++ g.children.map (fun c => InitCall.childInit c context)
    ∧ (Group.init g context).length
        = g.systemObjects.length + g.children.length := by
  have h : Group.init g context
      = g.systemObjects.map (fun so => InitCall.sysInit so context)
        ++ g.children.map (fun c => InitCall.childInit c context) := by
    rw [Group.init, initSysLoop_eq_map, initChildLoop_eq_map]
  exact ⟨h, by simp [h]⟩

/-- C5 witness: two system objects and two children produce exactly these
four `init` calls, system objects first, in order, all with context 7. -/
theorem init_call_order_witness :
    Group.init (Group.mk { id := "sys" } ["timer", "clock"] [playObj, stopObj]) (7 : Nat)
      = [InitCall.sysInit "timer" 7, InitCall.sysInit "clock" 7,
         InitCall.childInit playObj 7, InitCall.childInit stopObj 7] := by
  rw [(init_call_order (Group.mk { id := "sys" } ["timer", "clock"] [playObj, stopObj]) 7).1]
  rfl

/-- C6: during `render()` the trace of operations is the container's own
render-target operations (which append no child handle) followed, for each
child in declaration order, by that child's complete render trace and only
then the append of that child's handle; consequently the container's
render-target receives the child handles exactly in declaration order. -/
theorem draw_children_render_before_append (provider : String → String) (g : Group) :
    (Group.draw provider g).2
      = Group.drawSelf provider g
        ++ (g.children.map
            (fun c => GuiObj.draw provider c ++ [DrawEvent.appendChild c])).flatten
    ∧ ∀ e ∈ Group.drawSelf provider g, ∀ c, e ≠ DrawEvent.appendChild c := by
  constructor
  · cases g with
    | mk a s c =>
      rw [Group.draw, drawChildren_eq_flatten]
      simp
  · intro e he c hcon
    subst hcon
    rcases hb : g.attrs.background with _ | b <;>
      rcases hd : g.attrs.drawBackground with _ | _ <;>
      simp [Group.drawSelf, hb, hd] at he

/-- C6 witness: for a container with children a, b, c the render trace is the
container's own operations followed by each child's trace and then its
append, in the declaration order a, b, c. -/
theorem draw_children_render_before_append_witness :
    (Group.draw id (Group.mk { id := "abc" } []
        [GuiObj.leaf "a", GuiObj.leaf "b", GuiObj.leaf "c"])).2
      = Group.drawSelf id (Group.mk { id := "abc" } []
          [GuiObj.leaf "a", GuiObj.leaf "b", GuiObj.leaf "c"])
        ++ (GuiObj.draw id (GuiObj.leaf "a") ++ [DrawEvent.appendChild (GuiObj.leaf "a")])
        ++ (GuiObj.draw id (GuiObj.leaf "b") ++ [DrawEvent.appendChild (GuiObj.leaf "b")])
        ++ (GuiObj.draw id (GuiObj.leaf "c") ++ [DrawEvent.appendChild (GuiObj.leaf "c")]) := by
  rw [(draw_children_render_before_append id (Group.mk { id := "abc" } []
    [GuiObj.leaf "a", GuiObj.leaf "b", GuiObj.leaf "c"])).1]
  simp

/-- C7: during `render()` the background-composition value obtained from the
resource provider is applied to the container's render-target if and only if
the stored background reference is non-null and the draw-background flag is
true; when applied it is the provider's value for the stored reference, and
the call leaves every field of the container — in particular the stored
background reference — unchanged. -/
theorem draw_background_composition_iff (provider : String → String) (g : Group) :
    ((∃ css, DrawEvent.setBackground css ∈ Group.drawSelf provider g)
        ↔ g.attrs.background.isSome ∧ g.attrs.drawBackground = true)
    ∧ (∀ b, g.attrs.background = some b → g.attrs.drawBackground = true →
        DrawEvent.setBackground (provider b) ∈ Group.drawSelf provider g)
    ∧ (Group.draw provider g).1 = g := by
  refine ⟨?_, ?_, ?_⟩
  · rcases hb : g.attrs.background with _ | b <;>
      rcases hd : g.attrs.drawBackground with _ | _ <;>
      simp [Group.drawSelf, hb, hd]
  · intro b hb hd
    simp [Group.drawSelf, hb, hd]
  · cases g with
    | mk a s c => rw [Group.draw]

/-- C7 witness: with background "bmp" set and the draw-background flag true,
the provider's value for "bmp" is applied; the container itself is returned
unchanged by the render pass. -/
theorem draw_background_composition_iff_witness :
    DrawEvent.setBackground (String.append "bmp" ".css")
        ∈ Group.drawSelf (fun r => String.append r ".css")
          (Group.mk { id := "bg", background := some "bmp", drawBackground := true } [] [])
    ∧ (Group.draw (fun r => String.append r ".css")
        (Group.mk { id := "bg", background := some "bmp", drawBackground := true } [] [])).1
      = Group.mk { id := "bg", background := some "bmp", drawBackground := true } [] [] := by
  constructor
  · exact (draw_background_composition_iff (fun r => String.append r ".css")
      (Group.mk { id := "bg", background := some "bmp", drawBackground := true } [] [])).2.1
      "bmp" rfl rfl
  · exact (draw_background_composition_iff (fun r => String.append r ".css")
      (Group.mk { id := "bg", background := some "bmp", drawBackground := true } [] [])).2.2

/-- C9 counterexample: attach system object "s" to container "A" and then to
container "B". Its parent back-reference is "B" (last assignment wins), but
"s" is simultaneously a member of both "A"'s and "B"'s system-object lists —
refuting the claim that it cannot hold membership in both. -/
theorem addSystemObject_dual_membership_counterexample :
    (((SysWorld.mk [] []).addSystemObject "A" "s").addSystemObject "B" "s").parentOf "s"
        = some "B"
    ∧ ("A", "s") ∈ (((SysWorld.mk [] []).addSystemObject "A" "s").addSystemObject "B" "s").members
    ∧ ("B", "s") ∈ (((SysWorld.mk [] []).addSystemObject "A" "s").addSystemObject "B" "s").members := by
  decide

/-- C9 amended: after attaching a system object first to container A and then
to container B, its parent back-reference is B (last assignment wins), but
the object remains listed in both A's and B's system-object lists —
re-attachment never removes the earlier listing. -/
theorem addSystemObject_reattach_amended (w : SysWorld) (A B s : String) :
    ((w.addSystemObject A s).addSystemObject B s).parentOf s = some B
    ∧ ((w.addSystemObject A s).addSystemObject B s).inList A s
    ∧ ((w.addSystemObject A s).addSystemObject B s).inList B s := by
  refine ⟨?_, ?_, ?_⟩
  · simp [SysWorld.addSystemObject, SysWorld.setParentGroup, SysWorld.parentOf, List.find?]
  · simp [SysWorld.addSystemObject, SysWorld.setParentGroup, SysWorld.inList]
  · simp [SysWorld.addSystemObject, SysWorld.setParentGroup, SysWorld.inList]

end Webamp
